import Mathlib

/- Verification development for the confession-bot repository.
   The ranking/presentation pipeline of `enhanced_ranking_ui.py` and the
   web wrapper of `bot_web.py` are shallowly embedded below; Python `int`
   becomes `Int`, Python float arithmetic over ratios of integers becomes
   `Rat`, Python `int(...)` truncation toward zero becomes `ratTrunc`,
   Python string repetition (empty on non-positive counts) becomes
   `pyStrMul`, and `os.getenv` becomes a lookup `String → Option String`. -/

/- Repetition of a string a natural number of times. -/
def strRepeat (s : String) (n : ℕ) : String := String.join (List.replicate n s)

/- Python `s * n` on strings: non-positive counts give the empty string. -/
def pyStrMul (s : String) (n : ℤ) : String := if n ≤ 0 then "" else strRepeat s n.toNat

/- Python `int(q)`: truncation toward zero. -/
def ratTrunc (q : ℚ) : ℤ := if q < 0 then -⌊-q⌋ else ⌊q⌋

/- The `progress` value of `create_advanced_progress_bar`:
   `min(current / maximum, 1.0)`. -/
def progressOf (current maximum : ℤ) : ℚ := min ((current : ℚ) / (maximum : ℚ)) 1

/- Fill-glyph selection of `create_advanced_progress_bar` by progress band. -/
def fillCharOf (p : ℚ) : String :=
  if 9/10 ≤ p then "🔥"
  else if 7/10 ≤ p then "⭐"
  else if 1/2 ≤ p then "💫"
  else if 3/10 ≤ p then "✨"
  else "🌟"

/- The integer percentage `int(progress * 100)` reported in the bar. -/
def pctInt (current maximum : ℤ) : ℤ := ratTrunc (progressOf current maximum * 100)

/- The `filled` count `int(progress * length)`. -/
def filledOf (current maximum : ℤ) (length : ℕ) : ℤ :=
  ratTrunc (progressOf current maximum * length)

/- The glyph portion of the bar: `fill_char * filled + empty_char * empty`. -/
def barOf (current maximum : ℤ) (length : ℕ) : String :=
  pyStrMul (fillCharOf (progressOf current maximum)) (filledOf current maximum length)
    ++ pyStrMul "▫️" ((length : ℤ) - filledOf current maximum length)

/- `EnhancedRankingUI.create_advanced_progress_bar` from
   `enhanced_ranking_ui.py` lines 25-51. -/
def create_advanced_progress_bar (current maximum : ℤ) (length : ℕ) : String :=
  if maximum = 0 then strRepeat "🔥" length ++ " MAX LEVEL"
  else barOf current maximum length ++ " " ++ toString (pctInt current maximum) ++ "%"

/- Division made fallible: `none` exactly when the divisor is zero, the
   case in which Python `current / maximum` raises ZeroDivisionError. -/
def ratDivChecked (a b : ℤ) : Option ℚ := if b = 0 then none else some ((a : ℚ) / (b : ℚ))

/- `create_advanced_progress_bar` with its one fallible operation (the
   division) routed through `ratDivChecked`: the result is `none` exactly
   when the Python code would attempt a division by zero. -/
def create_advanced_progress_bar_checked (current maximum : ℤ) (length : ℕ) : Option String :=
  if maximum = 0 then some (strRepeat "🔥" length ++ " MAX LEVEL")
  else (ratDivChecked current maximum).map (fun q =>
    pyStrMul (fillCharOf (min q 1)) (ratTrunc (min q 1 * length))
      ++ pyStrMul "▫️" ((length : ℤ) - ratTrunc (min q 1 * length))
      ++ " " ++ toString (ratTrunc (min q 1 * 100)) ++ "%")

/- `EnhancedRankingUI.create_streak_visualization` from
   `enhanced_ranking_ui.py` lines 53-67. -/
def create_streak_visualization (streak_days : ℤ) : String :=
  if streak_days = 0 then "📅 No streak yet - start your journey!"
  else if streak_days < 7 then "🔥 " ++ toString streak_days ++ " day streak - keep it up!"
  else if streak_days < 30 then "⚡ " ++ toString streak_days ++ " day streak - you\x27re on fire!"
  else if streak_days < 90 then "🚀 " ++ toString streak_days ++ " day streak - amazing dedication!"
  else if streak_days < 365 then "👑 " ++ toString streak_days ++ " day streak - you\x27re a legend!"
  else "🌟 " ++ toString streak_days ++ " day streak - ULTIMATE DEVOTEE!"

/- The six band labels of the streak visualization, named individually. -/
def streakLabelNone : String := "📅 No streak yet - start your journey!"

def streakLabelWeek (d : ℤ) : String := "🔥 " ++ toString d ++ " day streak - keep it up!"

def streakLabelMonth (d : ℤ) : String := "⚡ " ++ toString d ++ " day streak - you\x27re on fire!"

def streakLabelQuarter (d : ℤ) : String := "🚀 " ++ toString d ++ " day streak - amazing dedication!"

def streakLabelYear (d : ℤ) : String := "👑 " ++ toString d ++ " day streak - you\x27re a legend!"

def streakLabelUltimate (d : ℤ) : String := "🌟 " ++ toString d ++ " day streak - ULTIMATE DEVOTEE!"

/- Modelled from the spec: `escape_markdown_text` lives in `utils.py`,
   which is not part of this repository snapshot; the spec describes it
   only as "a lightweight markup-escaping convention".  Each markup
   special character is prefixed with a backslash. -/
def isMdSpecial (c : Char) : Bool :=
  c ∈ ['_', '*', '[', ']', '(', ')', '~', '\x60', '>', '#', '+', '-', '=', '|', '\x7b', '\x7d', '.', '!']

/- Modelled from the spec: see `isMdSpecial`. -/
def escape_markdown_text (s : String) : String :=
  String.mk (s.data.foldr (fun c acc => if isMdSpecial c then '\\' :: c :: acc else c :: acc) [])

/- Python `str.title()` restricted to its ASCII behaviour: the first
   letter of each alphabetic run is uppercased, the rest lowercased. -/
def pyTitleAux : Bool → List Char → List Char
  | _, [] => []
  | prevAlpha, c :: rest =>
    if c.isAlpha then (if prevAlpha then c.toLower else c.toUpper) :: pyTitleAux true rest
    else c :: pyTitleAux false rest

def pyTitle (s : String) : String := String.mk (pyTitleAux false s.data)

/- Grouping of a reversed digit list into blocks of three, as done by
   Python format spec `:,`. -/
def commaChunk : List Char → List Char
  | [] => []
  | [a] => [a]
  | [a, b] => [a, b]
  | [a, b, c] => [a, b, c]
  | a :: b :: c :: d :: rest => a :: b :: c :: ',' :: commaChunk (d :: rest)

/- Python `f"{n:,}"`: thousands separators. -/
def commaFmt (n : ℤ) : String :=
  (if n < 0 then "-" else "") ++ String.mk (commaChunk (toString n.natAbs).data.reverse).reverse

/- A leaderboard entry, as consumed by `format_enhanced_leaderboard`
   (attribute access path of lines 219-239). -/
structure LeaderboardEntry where
  position : ℤ
  anonymous_name : String
  points : ℤ
  rank_emoji : String
  rank_name : String
  streak_days : ℤ
  special_badges : List String
deriving DecidableEq

/- The aggregate stats dict of `format_enhanced_leaderboard`. -/
structure LeaderboardStats where
  total_participants : ℤ
  average_points : ℤ
  highest_points : ℤ
deriving DecidableEq

/- The `position_emojis` dict of `enhanced_ranking_ui.py` lines 214-217,
   as a partial lookup. -/
def position_emojis (p : ℤ) : Option String :=
  if p = 1 then some "🥇"
  else if p = 2 then some "🥈"
  else if p = 3 then some "🥉"
  else if p = 4 then some "🏅"
  else if p = 5 then some "🏅"
  else if p = 6 then some "⭐"
  else if p = 7 then some "⭐"
  else if p = 8 then some "⭐"
  else if p = 9 then some "💫"
  else if p = 10 then some "💫"
  else none

/- `position_emojis.get(position, f"{position}\\.")` of line 226. -/
def pos_emoji_of (p : ℤ) : String := (position_emojis p).getD (toString p ++ "\\.")

/- `badges_str` of lines 229-231: at most two badges, space separated. -/
def badgesStrOf (e : LeaderboardEntry) : String :=
  if e.special_badges.isEmpty then "" else " " ++ String.intercalate " " (e.special_badges.take 2)

/- `streak_str` of lines 233-239. -/
def streakStrOf (e : LeaderboardEntry) : String :=
  if 0 < e.streak_days then
    if 30 ≤ e.streak_days then " 🔥" else if 7 ≤ e.streak_days then " ⚡" else ""
  else ""

/- The part of an entry row after the position glyph (lines 241-245). -/
def entryRowRest (e : LeaderboardEntry) : String :=
  " " ++ escape_markdown_text e.rank_emoji ++ " **" ++ escape_markdown_text e.anonymous_name
    ++ "**" ++ badgesStrOf e ++ streakStrOf e ++ "\\n     " ++ escape_markdown_text e.rank_name
    ++ " • **" ++ commaFmt e.points ++ "** points\\n\\n"

/- One formatted leaderboard row (lines 219-245). -/
def entryRow (e : LeaderboardEntry) : String := pos_emoji_of e.position ++ entryRowRest e

/- The leaderboard header with optional stats block (lines 204-209). -/
def headerOf (leaderboard_type : String) (stats : Option LeaderboardStats) : String :=
  let h := "🏆 *" ++ pyTitle leaderboard_type ++ " Leaderboard*\n\n"
  match stats with
  | none => h
  | some s =>
      h ++ "👥 **" ++ toString s.total_participants ++ "** active participants\n"
        ++ "📊 Average: **" ++ commaFmt s.average_points ++ "** points\n"
        ++ "🎯 Highest: **" ++ commaFmt s.highest_points ++ "** points\n\n"

/- The empty-leaderboard placeholder text (lines 191-202). -/
def emptyPlaceholder (leaderboard_type : String) : String :=
  "\n🏆 *" ++ pyTitle leaderboard_type ++ " Leaderboard*\n\n🎯 No participants yet\\. Be the first to earn your place\\!\n\n💡 *Tips to get on the leaderboard:*\n• Submit quality confessions\n• Engage with comments\n• Maintain daily streaks\n• Earn achievements\n"

/- The closing line of a non-empty leaderboard (line 247). -/
def footerStr : String := "🚀 *Keep climbing the ranks\\!*"

/- `EnhancedRankingUI.format_enhanced_leaderboard` from
   `enhanced_ranking_ui.py` lines 188-248. -/
def format_enhanced_leaderboard (leaderboard_data : List LeaderboardEntry)
    (leaderboard_type : String) (stats : Option LeaderboardStats) : String :=
  if leaderboard_data.isEmpty then emptyPlaceholder leaderboard_type
  else headerOf leaderboard_type stats
    ++ String.join (leaderboard_data.map entryRow) ++ footerStr

/- Python truthiness of an `os.getenv` result: `None` and `""` are falsy. -/
def pyTruthy (o : Option String) : Bool :=
  match o with
  | none => false
  | some s => !s.isEmpty

/- The `required_vars` list of `check_environment` (`bot_web.py` 77-82). -/
def required_vars : List String := ["BOT_TOKEN", "CHANNEL_ID", "BOT_USERNAME", "ADMIN_ID_1"]

/- `missing_vars` accumulation of `bot_web.py` lines 84-87. -/
def missing_vars (env : String → Option String) : List String :=
  required_vars.filter (fun v => !pyTruthy (env v))

/- `check_environment` from `bot_web.py` lines 75-94. -/
def check_environment (env : String → Option String) : Bool :=
  (missing_vars env).isEmpty

/- Outcome of the `__main__` block of `bot_web.py`: either the process
   exits with a code, or it serves (having started the bot thread). -/
inductive StartupResult where
  | exited (code : ℕ)
  | served (botThreadStarted : Bool)
deriving DecidableEq

/- The `__main__` block of `bot_web.py` lines 96-123: failed environment
   check exits with status 1 before the bot thread and web server start. -/
def mainStartup (env : String → Option String) : StartupResult :=
  if check_environment env then .served true else .exited 1

/- The module-level `bot_status` record of `bot_web.py` line 26;
   timestamps are modelled as integer seconds. -/
structure BotStatus where
  running : Bool
  start_time : Option ℤ
  last_activity : Option ℤ
deriving DecidableEq

/- The JSON body of the `/health` route (`bot_web.py` lines 39-50). -/
structure HealthResponse where
  status : String
  bot_status : BotStatus
  environment : List (String × Bool)
deriving DecidableEq

/- The `/health` route of `bot_web.py` lines 39-50. -/
def health (bs : BotStatus) (env : String → Option String) : HealthResponse :=
  { status := if bs.running then "ok" else "error"
    bot_status := bs
    environment :=
      [("bot_token_set", pyTruthy (env "BOT_TOKEN")),
       ("channel_id_set", pyTruthy (env "CHANNEL_ID")),
       ("admin_id_set", pyTruthy (env "ADMIN_ID_1"))] }

/- The JSON body of the `/` route (`bot_web.py` lines 28-37). -/
structure HomeResponse where
  status : String
  service : String
  bot_running : Bool
  uptime : ℤ
deriving DecidableEq

/- The `/` route of `bot_web.py` lines 28-37, at current time `now`. -/
def home (bs : BotStatus) (now : ℤ) : HomeResponse :=
  { status := "healthy"
    service := "Telegram Confession Bot"
    bot_running := bs.running
    uptime := match bs.start_time with | some t => now - t | none => 0 }

/- Result of a rank computation: current tier threshold, next tier
   threshold (`none` at the ceiling tier), and points remaining. -/
structure RankResult where
  threshold : ℕ
  next : Option ℕ
  points_to_next : ℕ
deriving DecidableEq

/- Modelled from the spec: `RankCalculator` lives in
   `enhanced_ranking_system.py`, which is not part of this repository
   snapshot.  Spec 4.1: given the table of tier thresholds (ascending)
   and total_points, return the highest tier whose threshold ≤
   total_points, the next tier threshold (or a none sentinel at the
   ceiling tier) and the difference; points below the lowest threshold
   map to the lowest tier. -/
def rankCalc : List ℕ → ℕ → RankResult
  | [], _ => ⟨0, none, 0⟩
  | [t], _ => ⟨t, none, 0⟩
  | t :: t2 :: rest, p => if p < t2 then ⟨t, some t2, t2 - p⟩ else rankCalc (t2 :: rest) p

example : create_streak_visualization 0 = streakLabelNone := by decide
example : create_streak_visualization 400 = streakLabelUltimate 400 := by decide
example : create_advanced_progress_bar 3 0 2 = "🔥🔥 MAX LEVEL" := by decide
example : pctInt (-1) (-1) = 100 := by norm_num [pctInt, progressOf, ratTrunc]
example : pctInt 0 (-1) = 0 := by norm_num [pctInt, progressOf, ratTrunc]
example : commaFmt 1234567 = "1,234,567" := by decide
example : commaFmt (-1234) = "-1,234" := by decide
example : pyTitle "weekly" = "Weekly" := by decide
example : rankCalc [0, 100, 500] 150 = ⟨100, some 500, 350⟩ := by decide
example : rankCalc [0, 100, 500] 700 = ⟨500, none, 0⟩ := by decide
example : pos_emoji_of 11 = "11\\." := by decide
example : escape_markdown_text "a.b!" = "a\\.b\\!" := by decide

/- Truncation toward zero is monotone. -/
theorem ratTrunc_mono {q r : ℚ} (h : q ≤ r) : ratTrunc q ≤ ratTrunc r := by
  unfold ratTrunc
  by_cases hq : q < 0 <;> by_cases hr : r < 0 <;> simp only [hq, hr, if_pos, if_neg, if_true, if_false, ite_true, ite_false]
  · exact neg_le_neg (Int.floor_mono (neg_le_neg h))
  · have h1 : (0:ℤ) ≤ ⌊-q⌋ := Int.floor_nonneg.mpr (by linarith)
    have h2 : (0:ℤ) ≤ ⌊r⌋ := Int.floor_nonneg.mpr (by linarith)
    omega
  · linarith
  · exact Int.floor_mono h

/- Truncation of an integer is that integer. -/
theorem ratTrunc_intCast (n : ℤ) : ratTrunc (n : ℚ) = n := by
  unfold ratTrunc
  by_cases h : (n : ℚ) < 0
  · rw [if_pos h, ← Int.cast_neg, Int.floor_intCast]
    ring
  · rw [if_neg h, Int.floor_intCast]

/- Python string repetition at a natural count agrees with `strRepeat`. -/
theorem pyStrMul_natCast (s : String) (n : ℕ) : pyStrMul s (n : ℤ) = strRepeat s n := by
  unfold pyStrMul
  by_cases h : (n : ℤ) ≤ 0
  · have hn : n = 0 := by omega
    subst hn
    rw [if_pos h]
    rfl
  · rw [if_neg h, Int.toNat_natCast]

/- A string append is nonempty when its right part is. -/
theorem length_append_pos_right (a b : String) (h : 0 < b.length) : 0 < (a ++ b).length := by
  rw [String.length_append]
  omega

/-- Claim C2: for every current value and every bar length,
`create_advanced_progress_bar` with `maximum = 0` returns the fully
filled MAX LEVEL indicator, and the fallible-division variant returns
`some` of the same string, so no division by zero occurs on that input. -/
theorem c2_progress_bar_zero_maximum (current : ℤ) (length : ℕ) :
    create_advanced_progress_bar_checked current 0 length
      = some (strRepeat "🔥" length ++ " MAX LEVEL")
    ∧ create_advanced_progress_bar current 0 length
      = strRepeat "🔥" length ++ " MAX LEVEL" :=
  ⟨rfl, rfl⟩

/-- Claim C5: `create_streak_visualization` partitions the non-negative
streak counts into six bands cut at 0, 7, 30, 90 and 365, each boundary
belonging to the higher band, and yields the band's label. -/
theorem c5_streak_bands (d : ℤ) (h0 : 0 ≤ d) :
    (d = 0 → create_streak_visualization d = streakLabelNone)
    ∧ (1 ≤ d → d < 7 → create_streak_visualization d = streakLabelWeek d)
    ∧ (7 ≤ d → d < 30 → create_streak_visualization d = streakLabelMonth d)
    ∧ (30 ≤ d → d < 90 → create_streak_visualization d = streakLabelQuarter d)
    ∧ (90 ≤ d → d < 365 → create_streak_visualization d = streakLabelYear d)
    ∧ (365 ≤ d → create_streak_visualization d = streakLabelUltimate d) := by
  unfold create_streak_visualization streakLabelNone streakLabelWeek streakLabelMonth
    streakLabelQuarter streakLabelYear streakLabelUltimate
  refine ⟨fun h1 => ?_, fun h1 h2 => ?_, fun h1 h2 => ?_, fun h1 h2 => ?_,
    fun h1 h2 => ?_, fun h1 => ?_⟩ <;> split_ifs <;> first | rfl | omega

/-- Witness for C5 at the boundary inputs 0 and 400. -/
theorem c5_streak_bands_witness :
    create_streak_visualization 0 = streakLabelNone
    ∧ create_streak_visualization 400 = streakLabelUltimate 400 :=
  ⟨(c5_streak_bands 0 (by decide)).1 rfl,
   (c5_streak_bands 400 (by decide)).2.2.2.2.2 (by decide)⟩

/-- Claim C6: `format_enhanced_leaderboard` on the empty entry list
returns the encouragement placeholder for every leaderboard type and
stats argument, and is total (never raises) on that input. -/
theorem c6_empty_leaderboard_placeholder (leaderboard_type : String)
    (stats : Option LeaderboardStats) :
    format_enhanced_leaderboard [] leaderboard_type stats
      = emptyPlaceholder leaderboard_type :=
  rfl

/-- Claim C8: if any required configuration variable (BOT_TOKEN,
CHANNEL_ID, BOT_USERNAME, ADMIN_ID_1) is unset or empty, the startup
flow of `bot_web.py` exits with status 1 and never reaches the serving
state (which is the only state in which the bot thread starts). -/
theorem c8_missing_env_fatal (env : String → Option String) (v : String)
    (hv : v ∈ required_vars) (hbad : env v = none ∨ env v = some "") :
    mainStartup env = .exited 1 ∧ ∀ b, mainStartup env ≠ .served b := by
  have hfalse : pyTruthy (env v) = false := by
    rcases hbad with h | h <;> rw [h] <;> rfl
  have hmem : v ∈ missing_vars env := List.mem_filter.mpr ⟨hv, by simp [hfalse]⟩
  have hne : missing_vars env ≠ [] := List.ne_nil_of_mem hmem
  have hchk : check_environment env = false := by
    unfold check_environment
    cases hmv : missing_vars env with
    | nil => exact absurd hmv hne
    | cons a l => rfl
  refine ⟨?_, ?_⟩
  · unfold mainStartup
    rw [hchk]
    rfl
  · intro b
    unfold mainStartup
    rw [hchk]
    simp

/-- Witness for C8: with every variable unset, startup exits with 1. -/
theorem c8_missing_env_fatal_witness :
    mainStartup (fun _ => none) = .exited 1
    ∧ mainStartup (fun _ => none) ≠ .served true :=
  ⟨(c8_missing_env_fatal (fun _ => none) "BOT_TOKEN" (by decide) (Or.inl rfl)).1,
   (c8_missing_env_fatal (fun _ => none) "BOT_TOKEN" (by decide) (Or.inl rfl)).2 true⟩

/-- Counterexample to claim C9 as stated: the `/health` route exposes
exactly three presence flags (bot_token_set, channel_id_set,
admin_id_set) while the startup-required set has four variables, so
there is no flag for BOT_USERNAME. -/
theorem c9_counterexample :
    ((health ⟨false, none, none⟩ (fun _ => none)).environment.map Prod.fst
      = ["bot_token_set", "channel_id_set", "admin_id_set"])
    ∧ (health ⟨false, none, none⟩ (fun _ => none)).environment.length = 3
    ∧ required_vars = ["BOT_TOKEN", "CHANNEL_ID", "BOT_USERNAME", "ADMIN_ID_1"]
    ∧ required_vars.length = 4 :=
  ⟨rfl, rfl, rfl, rfl⟩

/-- Claim C9 amended: the `/health` route returns the process status
("ok" exactly when the bot thread is marked running), the bot-status
record (which carries the start time; the computed uptime is served by
the root route instead), and one presence flag for each of BOT_TOKEN,
CHANNEL_ID and ADMIN_ID_1 — but none for BOT_USERNAME. -/
theorem c9_health_response (bs : BotStatus) (env : String → Option String)
    (now t : ℤ) (h : bs.start_time = some t) :
    (health bs env).status = (if bs.running then "ok" else "error")
    ∧ (health bs env).bot_status = bs
    ∧ (health bs env).environment =
        [("bot_token_set", pyTruthy (env "BOT_TOKEN")),
         ("channel_id_set", pyTruthy (env "CHANNEL_ID")),
         ("admin_id_set", pyTruthy (env "ADMIN_ID_1"))]
    ∧ (home bs now).uptime = now - t := by
  refine ⟨rfl, rfl, rfl, ?_⟩
  simp [home, h]

/-- Witness for the amended C9 at a concrete status record and
environment. -/
theorem c9_health_response_witness :
    (health ⟨true, some 5, none⟩ (fun _ => some "x")).status = (if true then "ok" else "error")
    ∧ (health ⟨true, some 5, none⟩ (fun _ => some "x")).bot_status = ⟨true, some 5, none⟩
    ∧ (health ⟨true, some 5, none⟩ (fun _ => some "x")).environment =
        [("bot_token_set", pyTruthy ((fun _ => some "x") "BOT_TOKEN")),
         ("channel_id_set", pyTruthy ((fun _ => some "x") "CHANNEL_ID")),
         ("admin_id_set", pyTruthy ((fun _ => some "x") "ADMIN_ID_1"))]
    ∧ (home ⟨true, some 5, none⟩ 9).uptime = 9 - 5 :=
  c9_health_response ⟨true, some 5, none⟩ (fun _ => some "x") 9 5 rfl

/-- Counterexample to claim C3 as stated: with the fixed maximum -1 and
current values -1 ≤ 0, the reported percentage drops from 100 to 0, so
the percentage is not monotone in `current` for every fixed maximum. -/
theorem c3_counterexample :
    (-1 : ℤ) ≤ 0 ∧ pctInt (-1) (-1) = 100 ∧ pctInt 0 (-1) = 0 := by
  refine ⟨by decide, ?_, ?_⟩ <;> norm_num [pctInt, progressOf, ratTrunc]

/-- Claim C3 amended: for every fixed positive maximum, the percentage
reported in the output of `create_advanced_progress_bar` is monotone in
`current`; the second conjunct records that for a nonzero maximum the
output string does report exactly the percentage `pctInt`. -/
theorem c3_percentage_monotone (maximum c1 c2 : ℤ) (length : ℕ)
    (hm : 0 < maximum) (h : c1 ≤ c2) :
    pctInt c1 maximum ≤ pctInt c2 maximum
    ∧ create_advanced_progress_bar c1 maximum length
        = barOf c1 maximum length ++ " " ++ toString (pctInt c1 maximum) ++ "%" := by
  constructor
  · apply ratTrunc_mono
    apply mul_le_mul_of_nonneg_right _ (by norm_num : (0:ℚ) ≤ 100)
    apply min_le_min _ le_rfl
    apply div_le_div_of_nonneg_right (by exact_mod_cast h)
    exact_mod_cast hm.le
  · unfold create_advanced_progress_bar
    rw [if_neg (by omega : ¬ maximum = 0)]

/-- Witness for the amended C3 at maximum 2 and currents 1 ≤ 2. -/
theorem c3_percentage_monotone_witness :
    pctInt 1 2 ≤ pctInt 2 2
    ∧ create_advanced_progress_bar 1 2 15
        = barOf 1 2 15 ++ " " ++ toString (pctInt 1 2) ++ "%" :=
  c3_percentage_monotone 2 1 2 15 (by decide) (by decide)

/-- Claim C7: the display-layer functions are total.  For every integer
current, maximum and streak_days, `create_advanced_progress_bar` agrees
with its fallible-division variant (so the guarded division can never
be a division by zero) and both display functions return a nonempty
string. -/
theorem c7_display_functions_total (current maximum streak_days : ℤ) (length : ℕ) :
    create_advanced_progress_bar_checked current maximum length
      = some (create_advanced_progress_bar current maximum length)
    ∧ 0 < (create_advanced_progress_bar current maximum length).length
    ∧ 0 < (create_streak_visualization streak_days).length := by
  refine ⟨?_, ?_, ?_⟩
  · by_cases hm : maximum = 0
    · subst hm
      rfl
    · unfold create_advanced_progress_bar_checked create_advanced_progress_bar ratDivChecked
      rw [if_neg hm, if_neg hm, if_neg hm]
      rfl
  · by_cases hm : maximum = 0
    · unfold create_advanced_progress_bar
      rw [if_pos hm]
      exact length_append_pos_right _ _ (by decide)
    · unfold create_advanced_progress_bar
      rw [if_neg hm]
      exact length_append_pos_right _ _ (by decide)
  · unfold create_streak_visualization
    split
    · decide
    split
    · exact length_append_pos_right _ _ (by decide)
    split
    · exact length_append_pos_right _ _ (by decide)
    split
    · exact length_append_pos_right _ _ (by decide)
    split
    · exact length_append_pos_right _ _ (by decide)
    · exact length_append_pos_right _ _ (by decide)

/-- Claim C10: `create_advanced_progress_bar` clamps at 100%.  For a
positive maximum, once current reaches maximum the bar is exactly
`length` fill glyphs with no empty glyph and the reported percentage is
100; and for every current the reported percentage never exceeds 100. -/
theorem c10_progress_clamped (current maximum : ℤ) (length : ℕ) (hm : 0 < maximum) :
    (maximum ≤ current →
      create_advanced_progress_bar current maximum length = strRepeat "🔥" length ++ " 100%")
    ∧ pctInt current maximum ≤ 100 := by
  have hm0 : ¬ maximum = 0 := by omega
  have hmQ : (0:ℚ) < (maximum : ℚ) := by exact_mod_cast hm
  constructor
  · intro hc
    have h1 : progressOf current maximum = 1 := by
      unfold progressOf
      exact min_eq_right ((one_le_div hmQ).mpr (by exact_mod_cast hc))
    have hfill : fillCharOf (progressOf current maximum) = "🔥" := by
      rw [h1]
      unfold fillCharOf
      rw [if_pos (by norm_num)]
    have hfilled : filledOf current maximum length = (length : ℤ) := by
      unfold filledOf
      rw [h1, one_mul]
      rw [(by push_cast; ring : ((length : ℕ) : ℚ) = (((length : ℕ) : ℤ) : ℚ)), ratTrunc_intCast]
    have hpct : pctInt current maximum = 100 := by
      unfold pctInt
      rw [h1, one_mul]
      rw [(by push_cast; ring : (100 : ℚ) = (((100 : ℤ)) : ℚ)), ratTrunc_intCast]
    unfold create_advanced_progress_bar barOf
    rw [if_neg hm0, hfill, hfilled, hpct, sub_self, pyStrMul_natCast]
    rw [String.append_assoc, String.append_assoc, String.append_assoc]
    exact congrArg (strRepeat "🔥" length ++ ·)
      (by decide : pyStrMul "▫️" 0 ++ (" " ++ (toString (100:ℤ) ++ "%")) = " 100%")
  · have h1 : progressOf current maximum ≤ 1 := min_le_right _ _
    have h2 := ratTrunc_mono (mul_le_mul_of_nonneg_right h1 (by norm_num : (0:ℚ) ≤ 100))
    have h3 : ratTrunc ((1:ℚ) * 100) = 100 := by
      rw [one_mul, (by push_cast; ring : (100 : ℚ) = (((100 : ℤ)) : ℚ)), ratTrunc_intCast]
    unfold pctInt
    omega

/-- Witness for C10 at current 5, maximum 5, length 2. -/
theorem c10_progress_clamped_witness :
    create_advanced_progress_bar 5 5 2 = strRepeat "🔥" 2 ++ " 100%"
    ∧ pctInt 5 5 ≤ 100 :=
  ⟨(c10_progress_clamped 5 5 2 (by decide)).1 (by decide),
   (c10_progress_clamped 5 5 2 (by decide)).2⟩

set_option maxHeartbeats 1600000 in
/-- Claim C1: on a non-empty list of leaderboard entries whose position
fields are contiguous and 1-based in input order (the invariant of the
data model), `format_enhanced_leaderboard` renders one row per entry in
input order, the i-th row carrying the glyph for position i; the glyphs
for positions 1-10 are fixed by the position_emojis table, and every
position of 11 or more falls back to the numeric label. -/
theorem c1_position_glyphs (entries : List LeaderboardEntry) (leaderboard_type : String)
    (stats : Option LeaderboardStats) (hne : entries ≠ [])
    (hpos : ∀ (j : ℕ) (hj : j < entries.length),
      (entries.get ⟨j, hj⟩).position = (j : ℤ) + 1) :
    format_enhanced_leaderboard entries leaderboard_type stats
      = headerOf leaderboard_type stats ++ String.join (entries.map entryRow) ++ footerStr
    ∧ (∀ (i : ℕ) (hi : i < entries.length),
        entryRow (entries.get ⟨i, hi⟩)
          = pos_emoji_of ((i : ℤ) + 1) ++ entryRowRest (entries.get ⟨i, hi⟩))
    ∧ (pos_emoji_of 1 = "🥇" ∧ pos_emoji_of 2 = "🥈" ∧ pos_emoji_of 3 = "🥉"
        ∧ pos_emoji_of 4 = "🏅" ∧ pos_emoji_of 5 = "🏅" ∧ pos_emoji_of 6 = "⭐"
        ∧ pos_emoji_of 7 = "⭐" ∧ pos_emoji_of 8 = "⭐" ∧ pos_emoji_of 9 = "💫"
        ∧ pos_emoji_of 10 = "💫")
    ∧ (∀ p : ℤ, 11 ≤ p → pos_emoji_of p = toString p ++ "\\.") := by
  refine ⟨?_, ?_, ⟨by decide, by decide, by decide, by decide, by decide, by decide, by decide,
    by decide, by decide, by decide⟩, ?_⟩
  · cases entries with
    | nil => exact absurd rfl hne
    | cons a l => rfl
  · intro i hi
    rw [entryRow, hpos i hi]
  · intro p hp
    have h1 : position_emojis p = none := by
      unfold position_emojis
      split_ifs <;> first | omega | rfl
    unfold pos_emoji_of
    rw [h1]
    rfl

/-- Witness for C1 on a concrete two-entry leaderboard. -/
theorem c1_position_glyphs_witness :
    format_enhanced_leaderboard
        [⟨1, "A", 10, "🎯", "Student", 0, []⟩, ⟨2, "B", 5, "🎯", "Student", 0, []⟩]
        "weekly" none
      = headerOf "weekly" none
        ++ String.join
          ([⟨1, "A", 10, "🎯", "Student", 0, []⟩, ⟨2, "B", 5, "🎯", "Student", 0, []⟩].map entryRow)
        ++ footerStr
    ∧ (∀ (i : ℕ)
        (hi : i < ([⟨1, "A", 10, "🎯", "Student", 0, []⟩,
            ⟨2, "B", 5, "🎯", "Student", 0, []⟩] : List LeaderboardEntry).length),
        entryRow (([⟨1, "A", 10, "🎯", "Student", 0, []⟩,
            ⟨2, "B", 5, "🎯", "Student", 0, []⟩] : List LeaderboardEntry).get ⟨i, hi⟩)
          = pos_emoji_of ((i : ℤ) + 1)
            ++ entryRowRest (([⟨1, "A", 10, "🎯", "Student", 0, []⟩,
                ⟨2, "B", 5, "🎯", "Student", 0, []⟩] : List LeaderboardEntry).get ⟨i, hi⟩))
    ∧ (pos_emoji_of 1 = "🥇" ∧ pos_emoji_of 2 = "🥈" ∧ pos_emoji_of 3 = "🥉"
        ∧ pos_emoji_of 4 = "🏅" ∧ pos_emoji_of 5 = "🏅" ∧ pos_emoji_of 6 = "⭐"
        ∧ pos_emoji_of 7 = "⭐" ∧ pos_emoji_of 8 = "⭐" ∧ pos_emoji_of 9 = "💫"
        ∧ pos_emoji_of 10 = "💫")
    ∧ (∀ p : ℤ, 11 ≤ p → pos_emoji_of p = toString p ++ "\\.") :=
  c1_position_glyphs
    [⟨1, "A", 10, "🎯", "Student", 0, []⟩, ⟨2, "B", 5, "🎯", "Student", 0, []⟩]
    "weekly" none (by decide) (by decide)

/- Correctness of `rankCalc` on any table whose head is at most the
queried point total: the selected threshold is the largest one not
exceeding the points, and the next-tier data is as the spec states. -/
theorem rankCalc_spec (ts : List ℕ) (t : ℕ) (p : ℕ)
    (hs : List.Pairwise (· < ·) (t :: ts)) (hle : t ≤ p) :
    (rankCalc (t :: ts) p).threshold ∈ t :: ts
    ∧ (rankCalc (t :: ts) p).threshold ≤ p
    ∧ (∀ u ∈ t :: ts, u ≤ p → u ≤ (rankCalc (t :: ts) p).threshold)
    ∧ ((rankCalc (t :: ts) p).next = none ∧ (rankCalc (t :: ts) p).points_to_next = 0
       ∨ ∃ u, (rankCalc (t :: ts) p).next = some u ∧ u ∈ t :: ts ∧ p < u
            ∧ (rankCalc (t :: ts) p).points_to_next = u - p ∧ 0 < u - p) := by
  induction ts generalizing t with
  | nil =>
    refine ⟨List.mem_cons_self _ _, hle, ?_, Or.inl ⟨rfl, rfl⟩⟩
    intro u hu _
    rcases List.mem_cons.mp hu with rfl | hu2
    · exact le_rfl
    · exact absurd hu2 (List.not_mem_nil u)
  | cons t2 rest ih =>
    by_cases hp : p < t2
    · have hr : rankCalc (t :: t2 :: rest) p = ⟨t, some t2, t2 - p⟩ := by
        simp [rankCalc, hp]
      rw [hr]
      refine ⟨List.mem_cons_self _ _, hle, ?_,
        Or.inr ⟨t2, rfl, List.mem_cons_of_mem _ (List.mem_cons_self _ _), hp, rfl, by omega⟩⟩
      intro u hu hup
      rcases List.mem_cons.mp hu with rfl | hu2
      · exact le_rfl
      · have ht2u : t2 ≤ u := by
          rcases List.mem_cons.mp hu2 with rfl | hu3
          · exact le_rfl
          · exact le_of_lt ((List.pairwise_cons.mp (List.pairwise_cons.mp hs).2).1 u hu3)
        omega
    · have hp2 : t2 ≤ p := by omega
      have hs2 : List.Pairwise (· < ·) (t2 :: rest) := (List.pairwise_cons.mp hs).2
      have hr : rankCalc (t :: t2 :: rest) p = rankCalc (t2 :: rest) p := by
        simp [rankCalc, hp]
      rw [hr]
      obtain ⟨m1, m2, m3, m4⟩ := ih t2 hs2 hp2
      refine ⟨List.mem_cons_of_mem _ m1, m2, ?_, ?_⟩
      · intro u hu hup
        rcases List.mem_cons.mp hu with rfl | hu2
        · exact le_of_lt (lt_of_lt_of_le ((List.pairwise_cons.mp hs).1 _ (List.mem_cons_self _ _))
            (m3 t2 (List.mem_cons_self _ _) hp2))
        · exact m3 u hu2 hup
      · rcases m4 with h | ⟨u, hu1, hu2, hu3⟩
        · exact Or.inl h
        · exact Or.inr ⟨u, hu1, List.mem_cons_of_mem _ hu2, hu3⟩

/-- Claim C4 (spec-modelled, `RankCalculator` is outside this snapshot):
for every total_points and every strictly increasing threshold table
whose lowest tier threshold is 0, `rankCalc` returns the highest tier
whose threshold does not exceed total_points, together with the next
tier threshold (a none sentinel at the ceiling tier), and points_to_next
is 0 at the ceiling tier and otherwise equals next_threshold minus
total_points and is positive. -/
theorem c4_rank_calculator (tiers : List ℕ) (total_points : ℕ)
    (hs : List.Pairwise (· < ·) tiers) (h0 : tiers.head? = some 0) :
    (rankCalc tiers total_points).threshold ∈ tiers
    ∧ (rankCalc tiers total_points).threshold ≤ total_points
    ∧ (∀ u ∈ tiers, u ≤ total_points → u ≤ (rankCalc tiers total_points).threshold)
    ∧ ((rankCalc tiers total_points).next = none
         ∧ (rankCalc tiers total_points).points_to_next = 0
       ∨ ∃ u, (rankCalc tiers total_points).next = some u ∧ u ∈ tiers ∧ total_points < u
            ∧ (rankCalc tiers total_points).points_to_next = u - total_points
            ∧ 0 < u - total_points) := by
  cases tiers with
  | nil => simp at h0
  | cons t ts =>
    have ht : t = 0 := by simpa using h0
    subst ht
    exact rankCalc_spec ts 0 total_points hs (Nat.zero_le total_points)

/-- Witness for C4 on the table [0, 100, 500] at 150 points. -/
theorem c4_rank_calculator_witness :
    (rankCalc [0, 100, 500] 150).threshold ∈ [0, 100, 500]
    ∧ (rankCalc [0, 100, 500] 150).threshold ≤ 150
    ∧ (∀ u ∈ [0, 100, 500], u ≤ 150 → u ≤ (rankCalc [0, 100, 500] 150).threshold)
    ∧ ((rankCalc [0, 100, 500] 150).next = none
         ∧ (rankCalc [0, 100, 500] 150).points_to_next = 0
       ∨ ∃ u, (rankCalc [0, 100, 500] 150).next = some u ∧ u ∈ [0, 100, 500] ∧ 150 < u
            ∧ (rankCalc [0, 100, 500] 150).points_to_next = u - 150 ∧ 0 < u - 150) :=
  c4_rank_calculator [0, 100, 500] 150 (by decide) rfl
